import Mathlib

/-!
Shallow embedding of QuantLib's ForwardRateAgreement
(src/ql/instruments/forwardrateagreement.cpp) and proofs about it.

Reals, rates, discount factors and times are modelled as rationals; dates as
integers (serial day numbers).  External collaborators (calendars, day
counters, term structures, Ibor indices) are modelled as records of functions,
exactly at the interface the FRA code consumes.  Fallible operations return
Except: a QL_REQUIRE failure carries its message, dereferencing an empty
Handle or a null shared_ptr is a distinct error constructor (the latter is
undefined behaviour, a crash, in the C++ source).
-/

namespace QLFra

abbrev Date := Int

/-- Failure modes observable while running the embedded code: a QL_REQUIRE
validation failure with its message, an empty-Handle dereference (QuantLib
raises an error from the Handle), a null shared_ptr dereference (undefined
behaviour / crash in C++), and a fixing lookup for a date with no fixing. -/
inductive QLError where
  | requireFailure (msg : String)
  | emptyHandle
  | nullPointer
  | missingFixing
deriving DecidableEq, Repr

/-- Test whether an error is a QL_REQUIRE validation failure (as opposed to a
handle/pointer dereference failure or a missing fixing). -/
def QLError.isValidationFailure : QLError → Bool
  | .requireFailure _ => true
  | _ => false

inductive PositionType where
  | Long
  | Short
deriving DecidableEq, Repr

inductive Compounding where
  | Simple
  | Compounded
  | Continuous
deriving DecidableEq, Repr

inductive Frequency where
  | NoFrequency
  | Once
  | Annual
  | Semiannual
  | Quarterly
  | Monthly
deriving DecidableEq, Repr

inductive BusinessDayConvention where
  | Following
  | ModifiedFollowing
  | Preceding
  | ModifiedPreceding
  | Unadjusted
deriving DecidableEq, Repr

/-- Day-count convention: converts a date span into a year fraction. -/
structure DayCounter where
  yearFraction : Date → Date → ℚ

/-- Calendar capability: business-day adjustment of a date, and advancing a
date by a signed number of business days (the only unit the FRA code uses). -/
structure Calendar where
  adjust : Date → BusinessDayConvention → Date
  advance : Date → Int → BusinessDayConvention → Date

/-- Immutable interest-rate value: rate, day-count convention, compounding
style and frequency, as built by the C++ InterestRate constructor. -/
structure InterestRate where
  rate : ℚ
  dayCounter : DayCounter
  compounding : Compounding
  frequency : Frequency

/-- Term-structure capability: discount factors, a day counter, a calendar. -/
structure YieldTermStructure where
  discount : Date → ℚ
  dayCounter : DayCounter
  calendar : Calendar

/-- Ibor-index capability as consumed by the FRA code.  The fixing lookup may
fail (no realized fixing for that date); the forwarding term structure is a
Handle that may be empty. -/
structure IborIndex where
  fixing : Date → Option ℚ
  fixingDate : Date → Date
  maturityDate : Date → Date
  forwardingTermStructure : Option YieldTermStructure
  dayCounter : DayCounter
  fixingCalendar : Calendar
  businessDayConvention : BusinessDayConvention

/-- Contract state of a constructed ForwardRateAgreement: the member fields of
the C++ class after the constructor body finished. -/
structure ForwardRateAgreement where
  fraType : PositionType
  notionalAmount : ℚ
  index : Option IborIndex
  useIndexedCoupon : Bool
  dayCounter : DayCounter
  calendar : Calendar
  businessDayConvention : BusinessDayConvention
  valueDate : Date
  maturityDate : Date
  discountCurve : Option YieldTermStructure
  fixingDays : ℚ
  strikeForwardRate : InterestRate

/-- Truncation toward zero of a rational, as performed by the C++ cast
static_cast from Real to Integer. -/
def truncToInt (q : ℚ) : Int :=
  if 0 ≤ q then ⌊q⌋ else ⌈q⌉

/-- Constructor taking an explicit maturity date and an index
(src lines 28-54).  The member-initializer list dereferences the index
(dayCounter, fixingCalendar, businessDayConvention), so a null index crashes
before any QL_REQUIRE runs.  The body then business-day-adjusts the maturity
date, checks the notional, checks valueDate against the adjusted maturity
date, and builds the strike InterestRate with the index day counter, simple
compounding, frequency Once. -/
def construct1 (valueDate maturityDate : Date) (type : PositionType)
    (strikeForwardRate : ℚ) (notionalAmount : ℚ)
    (index : Option IborIndex) (discountCurve : Option YieldTermStructure)
    (useIndexedCoupon : Bool) : Except QLError ForwardRateAgreement :=
  match index with
  | none => Except.error QLError.nullPointer
  | some idx =>
  let adjustedMaturity := idx.fixingCalendar.adjust maturityDate idx.businessDayConvention
  if ¬ notionalAmount > 0 then
    Except.error (QLError.requireFailure "notionalAmount must be positive")
  else if ¬ valueDate < adjustedMaturity then
    Except.error (QLError.requireFailure "valueDate must be earlier than maturityDate")
  else
  Except.ok
    { fraType := type
      notionalAmount := notionalAmount
      index := index
      useIndexedCoupon := useIndexedCoupon
      dayCounter := idx.dayCounter
      calendar := idx.fixingCalendar
      businessDayConvention := idx.businessDayConvention
      valueDate := valueDate
      maturityDate := adjustedMaturity
      discountCurve := discountCurve
      fixingDays := 0
      strikeForwardRate :=
        { rate := strikeForwardRate
          dayCounter := idx.dayCounter
          compounding := Compounding.Simple
          frequency := Frequency.Once } }

/-- Constructor without an explicit maturity date (src lines 56-64): it
dereferences the index to compute the maturity date for valueDate and
delegates to the explicit-maturity constructor. -/
def construct2 (valueDate : Date) (type : PositionType)
    (strikeForwardRate : ℚ) (notionalAmount : ℚ)
    (index : Option IborIndex) (discountCurve : Option YieldTermStructure)
    (useIndexedCoupon : Bool) : Except QLError ForwardRateAgreement :=
  match index with
  | none => Except.error QLError.nullPointer
  | some idx =>
      construct1 valueDate (idx.maturityDate valueDate) type strikeForwardRate
        notionalAmount index discountCurve useIndexedCoupon

/-- Curve-driven constructor without an index (src lines 66-90).  The
member-initializer list dereferences the discountCurve Handle (dayCounter,
calendar), so an empty handle raises the handle error before the body runs.
The body checks the notional, then business-day-adjusts the maturity date,
then checks valueDate against the adjusted maturity date, and builds the
strike InterestRate with the curve day counter.  useIndexedCoupon is false
and no index is stored. -/
def construct3 (valueDate maturityDate : Date) (type : PositionType)
    (strikeForwardRate : ℚ) (notionalAmount : ℚ)
    (discountCurve : Option YieldTermStructure)
    (fixingDays : ℚ) (businessDayConvention : BusinessDayConvention) :
    Except QLError ForwardRateAgreement :=
  match discountCurve with
  | none => Except.error QLError.emptyHandle
  | some dc =>
  if ¬ notionalAmount > 0 then
    Except.error (QLError.requireFailure "notionalAmount must be positive")
  else
  let adjustedMaturity := dc.calendar.adjust maturityDate businessDayConvention
  if ¬ valueDate < adjustedMaturity then
    Except.error (QLError.requireFailure "valueDate must be earlier than maturityDate")
  else
  Except.ok
    { fraType := type
      notionalAmount := notionalAmount
      index := none
      useIndexedCoupon := false
      dayCounter := dc.dayCounter
      calendar := dc.calendar
      businessDayConvention := businessDayConvention
      valueDate := valueDate
      maturityDate := adjustedMaturity
      discountCurve := discountCurve
      fixingDays := fixingDays
      strikeForwardRate :=
        { rate := strikeForwardRate
          dayCounter := dc.dayCounter
          compounding := Compounding.Simple
          frequency := Frequency.Once } }

/-- fixingDate (src lines 92-100): delegate to the index when present,
otherwise advance valueDate backward by fixingDays business days, with
fixingDays truncated toward zero by the C++ cast to Integer. -/
def ForwardRateAgreement.fixingDate (fra : ForwardRateAgreement) : Date :=
  match fra.index with
  | some idx => idx.fixingDate fra.valueDate
  | none =>
      fra.calendar.advance fra.valueDate (-(truncToInt fra.fixingDays))
        fra.businessDayConvention

/-- Modelled from the spec: the simple-event machinery behind isExpired
(src lines 102-104 call detail simple_event hasOccurred, whose body is not in
src).  The spec says isExpired is true iff valueDate has already occurred
relative to the current evaluation date; under the default settings an event
has occurred iff its date is strictly before the evaluation date. -/
def ForwardRateAgreement.isExpired (fra : ForwardRateAgreement)
    (evalDate : Date) : Bool :=
  decide (fra.valueDate < evalDate)

/-- calculateForwardRate (src lines 131-151): three branches.  With an index
and useIndexedCoupon, the realized fixing at fixingDate; with an index and
not useIndexedCoupon, the par-coupon approximation from the index forwarding
curve; with no index, the same formula from discountCurve.  The C++ if-chain
tests (useIndexedCoupon and index) then (not useIndexedCoupon and index), so
the final else runs exactly when no index is present, and it dereferences the
discountCurve Handle. -/
def ForwardRateAgreement.calculateForwardRate (fra : ForwardRateAgreement) :
    Except QLError InterestRate :=
  match fra.index with
  | some idx =>
      if fra.useIndexedCoupon then
        match idx.fixing fra.fixingDate with
        | some r =>
            Except.ok
              { rate := r
                dayCounter := idx.dayCounter
                compounding := Compounding.Simple
                frequency := Frequency.Once }
        | none => Except.error QLError.missingFixing
      else
        match idx.forwardingTermStructure with
        | some ts =>
            Except.ok
              { rate :=
                  (ts.discount fra.valueDate / ts.discount fra.maturityDate - 1) /
                    idx.dayCounter.yearFraction fra.valueDate fra.maturityDate
                dayCounter := idx.dayCounter
                compounding := Compounding.Simple
                frequency := Frequency.Once }
        | none => Except.error QLError.emptyHandle
  | none =>
      match fra.discountCurve with
      | some dc =>
          Except.ok
            { rate :=
                (dc.discount fra.valueDate / dc.discount fra.maturityDate - 1) /
                  dc.dayCounter.yearFraction fra.valueDate fra.maturityDate
              dayCounter := dc.dayCounter
              compounding := Compounding.Simple
              frequency := Frequency.Once }
      | none => Except.error QLError.emptyHandle

/-- Written from the words of the spec, for refinement comparison with
calculateForwardRate: branch 1, useIndexedCoupon true and index present, the
realized fixing at fixingDate with the index day-count convention, simple
compounding, single period; branch 2, useIndexedCoupon false and index
present, (P(valueDate)/P(maturityDate) - 1)/tau with P the index forwarding
discount function and tau the year fraction under the index day-count
convention; branch 3, no index, the same formula using the discountCurve
discount function and day-count convention. -/
def forwardRateSpec (fra : ForwardRateAgreement) : Except QLError InterestRate :=
  match fra.index, fra.useIndexedCoupon with
  | some idx, true =>
      match idx.fixing fra.fixingDate with
      | some r =>
          Except.ok
            { rate := r
              dayCounter := idx.dayCounter
              compounding := Compounding.Simple
              frequency := Frequency.Once }
      | none => Except.error QLError.missingFixing
  | some idx, false =>
      match idx.forwardingTermStructure with
      | some p =>
          Except.ok
            { rate :=
                (p.discount fra.valueDate / p.discount fra.maturityDate - 1) /
                  idx.dayCounter.yearFraction fra.valueDate fra.maturityDate
              dayCounter := idx.dayCounter
              compounding := Compounding.Simple
              frequency := Frequency.Once }
      | none => Except.error QLError.emptyHandle
  | none, _ =>
      match fra.discountCurve with
      | some p =>
          Except.ok
            { rate :=
                (p.discount fra.valueDate / p.discount fra.maturityDate - 1) /
                  p.dayCounter.yearFraction fra.valueDate fra.maturityDate
              dayCounter := p.dayCounter
              compounding := Compounding.Simple
              frequency := Frequency.Once }
      | none => Except.error QLError.emptyHandle

/-- calculateAmount (src lines 153-162): run calculateForwardRate, then
amount = notionalAmount * sign * (F - K) * T / (1 + F * T) with sign +1 for
Long and -1 for Short, F the computed forward rate, K the strike rate, and T
the year fraction from valueDate to maturityDate under the forward rate
day-count convention.  Returns the computed forward rate together with the
amount (the two members the C++ method assigns). -/
def ForwardRateAgreement.calculateAmount (fra : ForwardRateAgreement) :
    Except QLError (InterestRate × ℚ) :=
  match fra.calculateForwardRate with
  | Except.error e => Except.error e
  | Except.ok fr =>
      let sign : ℚ := if fra.fraType = PositionType.Long then 1 else -1
      let F := fr.rate
      let K := fra.strikeForwardRate.rate
      let T := fr.dayCounter.yearFraction fra.valueDate fra.maturityDate
      Except.ok (fr, fra.notionalAmount * sign * (F - K) * T / (1 + F * T))

/-- Discounting-curve selection of performCalculations (src lines 125-128):
discountCurve when non-empty, otherwise the index forwarding term structure;
a null index or an empty selected handle fails at the dereference. -/
def ForwardRateAgreement.discountHandle (fra : ForwardRateAgreement) :
    Except QLError YieldTermStructure :=
  match fra.discountCurve with
  | some c => Except.ok c
  | none =>
      match fra.index with
      | none => Except.error QLError.nullPointer
      | some idx =>
          match idx.forwardingTermStructure with
          | some ts => Except.ok ts
          | none => Except.error QLError.emptyHandle

/-- Mutable results cache of the instrument: the members assigned by the
calculation routines, plus the calculated flag of the lazy-object machinery.
A field is none when never assigned. -/
structure InstrumentResults where
  forwardRate : Option InterestRate
  amount : Option ℚ
  NPV : Option ℚ
  errorEstimate : Option ℚ
  calculated : Bool

/-- performCalculations (src lines 122-129) as a state transformer over the
results cache, faithful to C++ member-assignment order and exception points:
calculateAmount assigns forwardRate then amount (a failure inside the
forward-rate step assigns nothing), then the discounting handle is selected
and dereferenced (a failure here leaves forwardRate and amount already
overwritten), then NPV is assigned.  Returns the resulting cache state and
the error, if one was raised. -/
def performCalculationsState (fra : ForwardRateAgreement)
    (st : InstrumentResults) : InstrumentResults × Option QLError :=
  match fra.calculateAmount with
  | Except.error e => (st, some e)
  | Except.ok (fr, a) =>
      let st1 : InstrumentResults :=
        { st with forwardRate := some fr, amount := some a }
      match fra.discountHandle with
      | Except.error e => (st1, some e)
      | Except.ok d =>
          ({ st1 with NPV := some (a * d.discount fra.valueDate) }, none)

/-- setupExpired (src lines 116-120) as a state transformer.  Modelled from
the spec for the base-class part: Instrument setupExpired (not in src) zeroes
NPV and the error estimate.  The FRA override then recomputes the forward
rate through the normal branch logic. -/
def setupExpiredState (fra : ForwardRateAgreement)
    (st : InstrumentResults) : InstrumentResults × Option QLError :=
  let st0 : InstrumentResults := { st with NPV := some 0, errorEstimate := some 0 }
  match fra.calculateForwardRate with
  | Except.error e => (st0, some e)
  | Except.ok fr => ({ st0 with forwardRate := some fr }, none)

/-- Modelled from the spec: the lazy-evaluation driver (Instrument calculate
and the lazy-object machinery, not in src).  If the cache is fresh, nothing
runs.  Otherwise the expired variant runs setupExpired, and the normal
variant runs performCalculations; on success the cache is marked calculated,
on failure it stays dirty (the spec: the cache remains marked dirty so the
next query retries). -/
def calculate (evalDate : Date) (fra : ForwardRateAgreement)
    (st : InstrumentResults) : InstrumentResults × Option QLError :=
  if st.calculated then (st, none)
  else if fra.isExpired evalDate then
    match setupExpiredState fra st with
    | (st1, some e) => ({ st1 with calculated := false }, some e)
    | (st1, none) => ({ st1 with calculated := true }, none)
  else
    match performCalculationsState fra st with
    | (st1, some e) => ({ st1 with calculated := false }, some e)
    | (st1, none) => ({ st1 with calculated := true }, none)

/-- Modelled from the spec: the NPV accessor of the base Instrument class
(not in src) ensures freshness and returns the cached NPV, requiring it to
have been provided. -/
def NPVQuery (evalDate : Date) (fra : ForwardRateAgreement)
    (st : InstrumentResults) : InstrumentResults × Except QLError ℚ :=
  let r := calculate evalDate fra st
  match r.2 with
  | some e => (r.1, Except.error e)
  | none =>
      match r.1.NPV with
      | some v => (r.1, Except.ok v)
      | none => (r.1, Except.error (QLError.requireFailure "NPV not provided"))

/-- forwardRate accessor (src lines 111-114): ensure freshness, return the
cached forward-rate member as stored. -/
def forwardRateQuery (evalDate : Date) (fra : ForwardRateAgreement)
    (st : InstrumentResults) :
    InstrumentResults × Except QLError (Option InterestRate) :=
  let r := calculate evalDate fra st
  match r.2 with
  | some e => (r.1, Except.error e)
  | none => (r.1, Except.ok r.1.forwardRate)

/-- amount accessor (src lines 106-109): ensure freshness, return the cached
settlement-amount member as stored. -/
def amountQuery (evalDate : Date) (fra : ForwardRateAgreement)
    (st : InstrumentResults) :
    InstrumentResults × Except QLError (Option ℚ) :=
  let r := calculate evalDate fra st
  match r.2 with
  | some e => (r.1, Except.error e)
  | none => (r.1, Except.ok r.1.amount)

/-! Concrete fixtures used by witnesses and counterexamples. -/

/-- Day counter mapping a day span to a year fraction over 360. -/
def dc360 : DayCounter :=
  { yearFraction := fun d1 d2 => ((d2 - d1 : Int) : ℚ) / 360 }

/-- Calendar whose adjustment is the identity and whose advance adds days. -/
def idCal : Calendar :=
  { adjust := fun d _ => d
    advance := fun d n _ => d + n }

/-- Calendar that business-day-adjusts every date to day 0 (for tests that
need maturity adjusted onto or before the value date). -/
def zeroCal : Calendar :=
  { adjust := fun _ _ => 0
    advance := fun d n _ => d + n }

/-- Flat term structure: discount 99/100 before day 90, then 97/100. -/
def tsFlat : YieldTermStructure :=
  { discount := fun d => if d < 90 then 99 / 100 else 97 / 100
    dayCounter := dc360
    calendar := idCal }

/-- Index with a realized fixing of 1/20 on every date, a forwarding term
structure, and simple date rules. -/
def sampleIdx : IborIndex :=
  { fixing := fun _ => some (1 / 20)
    fixingDate := fun d => d - 2
    maturityDate := fun d => d + 90
    forwardingTermStructure := some tsFlat
    dayCounter := dc360
    fixingCalendar := idCal
    businessDayConvention := BusinessDayConvention.Following }

/-- Index like sampleIdx but with an empty forwarding term structure. -/
def idxNoCurve : IborIndex :=
  { fixing := fun _ => some (1 / 20)
    fixingDate := fun d => d - 2
    maturityDate := fun d => d + 90
    forwardingTermStructure := none
    dayCounter := dc360
    fixingCalendar := idCal
    businessDayConvention := BusinessDayConvention.Following }

/-- Strike rate of 1/25 used by the fixture contracts. -/
def strikeFix : InterestRate :=
  { rate := 1 / 25
    dayCounter := dc360
    compounding := Compounding.Simple
    frequency := Frequency.Once }

/-- Curve-driven contract fixture: no index, discount curve tsFlat,
fractional fixingDays. -/
def fraCurve : ForwardRateAgreement :=
  { fraType := PositionType.Long
    notionalAmount := 100
    index := none
    useIndexedCoupon := false
    dayCounter := dc360
    calendar := idCal
    businessDayConvention := BusinessDayConvention.Following
    valueDate := 0
    maturityDate := 90
    discountCurve := some tsFlat
    fixingDays := 29 / 10
    strikeForwardRate := strikeFix }

/-- Indexed-coupon contract fixture with an index carrying a forwarding
curve. -/
def fraIdx : ForwardRateAgreement :=
  { fraType := PositionType.Long
    notionalAmount := 100
    index := some sampleIdx
    useIndexedCoupon := true
    dayCounter := dc360
    calendar := idCal
    businessDayConvention := BusinessDayConvention.Following
    valueDate := 0
    maturityDate := 90
    discountCurve := none
    fixingDays := 0
    strikeForwardRate := strikeFix }

/-- Indexed-coupon contract fixture whose index has no forwarding curve and
that has no discount curve: the forward rate and amount compute from the
realized fixing, but NPV discounting fails. -/
def fraIdxNoCurve : ForwardRateAgreement :=
  { fraType := PositionType.Long
    notionalAmount := 100
    index := some idxNoCurve
    useIndexedCoupon := true
    dayCounter := dc360
    calendar := idCal
    businessDayConvention := BusinessDayConvention.Following
    valueDate := 0
    maturityDate := 90
    discountCurve := none
    fixingDays := 0
    strikeForwardRate := strikeFix }

/-- Interest-rate value produced by the indexed-coupon branch on the fixture
indices: the realized fixing 1/20 with the fixture day counter. -/
def frIdxVal : InterestRate :=
  { rate := 1 / 20
    dayCounter := dc360
    compounding := Compounding.Simple
    frequency := Frequency.Once }

/-- Fresh results cache with nothing computed. -/
def stEmpty : InstrumentResults :=
  { forwardRate := none
    amount := none
    NPV := none
    errorEstimate := none
    calculated := false }

/-- Results cache holding previously cached values from an earlier
calculation, marked dirty again by a notification. -/
def stPrev : InstrumentResults :=
  { forwardRate := some strikeFix
    amount := some 7
    NPV := some 5
    errorEstimate := some 0
    calculated := false }

/-! Helper lemmas shared by the claim theorems. -/

theorem truncToInt_intCast (n : Int) : truncToInt ((n : Int) : ℚ) = n := by
  simp [truncToInt]

theorem calculateForwardRate_fraType (fra : ForwardRateAgreement)
    (ty : PositionType) :
    ({ fra with fraType := ty } : ForwardRateAgreement).calculateForwardRate =
      fra.calculateForwardRate := rfl

/-! Claim theorems. -/

/-- Claim C1: the forward-rate computation selects exactly one of three
mutually exclusive branches determined by useIndexedCoupon and the presence
of an index: with useIndexedCoupon and an index, the realized fixing at
fixingDate with the index day-count convention, simple compounding, single
period; without useIndexedCoupon but with an index, the rate
(P(valueDate)/P(maturityDate) - 1)/tau from the index forwarding discount
function and the index day-count convention; with no index, the same formula
from the discountCurve discount function and day-count convention.  Stated as
equality between the source translation and a definition written from the
words of the spec. -/
theorem claim_c1_forward_rate_branches (fra : ForwardRateAgreement) :
    fra.calculateForwardRate = forwardRateSpec fra := by
  cases h : fra.index with
  | none =>
      cases h2 : fra.useIndexedCoupon <;>
        simp [ForwardRateAgreement.calculateForwardRate, forwardRateSpec, h, h2]
  | some idx =>
      cases h2 : fra.useIndexedCoupon <;>
        simp [ForwardRateAgreement.calculateForwardRate, forwardRateSpec, h, h2]

/-- Claim C2: the settlement amount equals
notionalAmount * sign * (F - K) * T / (1 + F * T) with sign +1 for Long and
-1 for Short, F the computed forward rate, K the strike rate and T the year
fraction from valueDate to maturityDate under the forward-rate day-count
convention; and a Short position yields the negation of the Long amount for
the same inputs. -/
theorem claim_c2_settlement_amount (fra : ForwardRateAgreement)
    (fr : InterestRate) (h : fra.calculateForwardRate = Except.ok fr) :
    fra.calculateAmount = Except.ok (fr,
      fra.notionalAmount *
        (if fra.fraType = PositionType.Long then (1 : ℚ) else -1) *
        (fr.rate - fra.strikeForwardRate.rate) *
        fr.dayCounter.yearFraction fra.valueDate fra.maturityDate /
        (1 + fr.rate * fr.dayCounter.yearFraction fra.valueDate fra.maturityDate)) ∧
    ∀ aL aS,
      ({ fra with fraType := PositionType.Long } : ForwardRateAgreement).calculateAmount
          = Except.ok (fr, aL) →
      ({ fra with fraType := PositionType.Short } : ForwardRateAgreement).calculateAmount
          = Except.ok (fr, aS) →
      aS = -aL := by
  have hL : ({ fra with fraType := PositionType.Long } :
      ForwardRateAgreement).calculateForwardRate = Except.ok fr := h
  have hS : ({ fra with fraType := PositionType.Short } :
      ForwardRateAgreement).calculateForwardRate = Except.ok fr := h
  constructor
  · simp [ForwardRateAgreement.calculateAmount, h]
  · intro aL aS hAL hAS
    simp [ForwardRateAgreement.calculateAmount, hL] at hAL
    simp [ForwardRateAgreement.calculateAmount, hS] at hAS
    rw [← hAL, ← hAS]
    ring

/-- Witness for claim C2 at a concrete contract: applying the theorem at the
indexed fixture, whose forward rate is the realized fixing 1/20. -/
theorem claim_c2_settlement_amount_witness :
    fraIdx.calculateAmount = Except.ok (frIdxVal,
      fraIdx.notionalAmount *
        (if fraIdx.fraType = PositionType.Long then (1 : ℚ) else -1) *
        (frIdxVal.rate - fraIdx.strikeForwardRate.rate) *
        frIdxVal.dayCounter.yearFraction fraIdx.valueDate fraIdx.maturityDate /
        (1 + frIdxVal.rate *
          frIdxVal.dayCounter.yearFraction fraIdx.valueDate fraIdx.maturityDate)) := by
  have h := claim_c2_settlement_amount fraIdx frIdxVal
    (by simp [ForwardRateAgreement.calculateForwardRate, fraIdx, sampleIdx,
      ForwardRateAgreement.fixingDate, frIdxVal])
  exact h.1

/-- Claim C9: fixingDate returns the index fixing date for valueDate when an
index is present, and otherwise the date obtained by advancing valueDate
backward by fixingDays business days under the derived calendar and
convention; it is a pure function of the contract terms. -/
theorem claim_c9_fixing_date (fra : ForwardRateAgreement) :
    (∀ idx, fra.index = some idx →
      fra.fixingDate = idx.fixingDate fra.valueDate) ∧
    (fra.index = none →
      fra.fixingDate =
        fra.calendar.advance fra.valueDate (-(truncToInt fra.fixingDays))
          fra.businessDayConvention) := by
  constructor
  · intro idx h
    simp [ForwardRateAgreement.fixingDate, h]
  · intro h
    simp [ForwardRateAgreement.fixingDate, h]

/-- Witness for claim C9 at the two fixtures: the curve-driven contract uses
the backward calendar advance, the indexed contract delegates to the index. -/
theorem claim_c9_fixing_date_witness :
    fraCurve.fixingDate =
      fraCurve.calendar.advance fraCurve.valueDate
        (-(truncToInt fraCurve.fixingDays)) fraCurve.businessDayConvention ∧
    fraIdx.fixingDate = sampleIdx.fixingDate fraIdx.valueDate :=
  ⟨(claim_c9_fixing_date fraCurve).2 rfl,
   (claim_c9_fixing_date fraIdx).1 sampleIdx rfl⟩

/-- Claim C10: fixingDays is truncated toward zero to an integer when the
synthetic fixing date is computed, so a contract without an index and with a
fractional fixingDays value behaves exactly as if the integer part had been
supplied. -/
theorem claim_c10_fixing_days_truncation (fra : ForwardRateAgreement)
    (q : ℚ) (h : fra.index = none) :
    ({ fra with fixingDays := q } : ForwardRateAgreement).fixingDate =
      ({ fra with fixingDays := ((truncToInt q : Int) : ℚ) } :
        ForwardRateAgreement).fixingDate := by
  simp [ForwardRateAgreement.fixingDate, h, truncToInt_intCast]

/-- Witness for claim C10: with fixingDays 2.9 the curve-driven fixture
computes the same fixing date as with fixingDays 2. -/
theorem claim_c10_fixing_days_truncation_witness :
    ({ fraCurve with fixingDays := 29 / 10 } : ForwardRateAgreement).fixingDate =
      ({ fraCurve with fixingDays := (2 : ℚ) } : ForwardRateAgreement).fixingDate := by
  have h := claim_c10_fixing_days_truncation fraCurve (29 / 10) rfl
  rw [h]
  norm_num [truncToInt]

/-- Claim C7: at construction, maturityDate is first business-day-adjusted
with the derived calendar and convention, and construction fails with a
descriptive validation error unless valueDate is strictly earlier than the
adjusted maturityDate; since the check runs after the adjustment, a
maturityDate that adjusts onto or before valueDate is rejected.  Stated for
both the index-driven and the curve-driven constructor. -/
theorem claim_c7_maturity_adjustment (vd md : Date) (ty : PositionType)
    (k n : ℚ) (idx : IborIndex) (cur : Option YieldTermStructure) (u : Bool)
    (ts : YieldTermStructure) (fd : ℚ) (bdc : BusinessDayConvention) :
    (∀ fra, construct1 vd md ty k n (some idx) cur u = Except.ok fra →
      fra.maturityDate = idx.fixingCalendar.adjust md idx.businessDayConvention ∧
      fra.valueDate < fra.maturityDate) ∧
    (0 < n → idx.fixingCalendar.adjust md idx.businessDayConvention ≤ vd →
      construct1 vd md ty k n (some idx) cur u =
        Except.error (QLError.requireFailure
          "valueDate must be earlier than maturityDate")) ∧
    (∀ fra, construct3 vd md ty k n (some ts) fd bdc = Except.ok fra →
      fra.maturityDate = ts.calendar.adjust md bdc ∧
      fra.valueDate < fra.maturityDate) ∧
    (0 < n → ts.calendar.adjust md bdc ≤ vd →
      construct3 vd md ty k n (some ts) fd bdc =
        Except.error (QLError.requireFailure
          "valueDate must be earlier than maturityDate")) := by
  refine ⟨?_, ?_, ?_, ?_⟩
  · intro fra hok
    by_cases hn : (0 : ℚ) < n
    · by_cases hv : vd < idx.fixingCalendar.adjust md idx.businessDayConvention
      · simp [construct1, hn, hv] at hok
        rw [← hok]
        exact ⟨rfl, hv⟩
      · simp [construct1, hn, hv] at hok
    · simp [construct1, hn] at hok
  · intro hn hv
    simp [construct1, hn, not_lt.mpr hv]
  · intro fra hok
    by_cases hn : (0 : ℚ) < n
    · by_cases hv : vd < ts.calendar.adjust md bdc
      · simp [construct3, hn, hv] at hok
        rw [← hok]
        exact ⟨rfl, hv⟩
      · simp [construct3, hn, hv] at hok
    · simp [construct3, hn] at hok
  · intro hn hv
    simp [construct3, hn, not_lt.mpr hv]

/-- Witness for claim C7: with the calendar that adjusts every date to day 0,
a maturity of day 90 adjusts onto the value date 0 and both constructors
reject the contract; with the identity calendar the constructors succeed and
the constructed contract satisfies valueDate earlier than the adjusted
maturityDate. -/
theorem claim_c7_maturity_adjustment_witness :
    construct3 0 90 PositionType.Long (1 / 25) 100
        (some { discount := fun _ => 1, dayCounter := dc360, calendar := zeroCal })
        2 BusinessDayConvention.Following =
      Except.error (QLError.requireFailure
        "valueDate must be earlier than maturityDate") ∧
    ∀ fra, construct3 0 90 PositionType.Long (1 / 25) 100 (some tsFlat) 2
        BusinessDayConvention.Following = Except.ok fra →
      fra.maturityDate = tsFlat.calendar.adjust 90 BusinessDayConvention.Following ∧
      fra.valueDate < fra.maturityDate := by
  constructor
  · exact (claim_c7_maturity_adjustment 0 90 PositionType.Long (1 / 25) 100
      sampleIdx none true
      { discount := fun _ => 1, dayCounter := dc360, calendar := zeroCal }
      2 BusinessDayConvention.Following).2.2.2 (by norm_num) (by simp [zeroCal])
  · exact (claim_c7_maturity_adjustment 0 90 PositionType.Long (1 / 25) 100
      sampleIdx none true tsFlat 2 BusinessDayConvention.Following).2.2.1

/-- Claim C8: a construction with notionalAmount not positive fails with the
descriptive validation error, and a constructed contract always has a
positive notionalAmount (stated for all three constructors). -/
theorem claim_c8_notional_validation (vd md : Date) (ty : PositionType)
    (k n : ℚ) (idx : IborIndex) (ind : Option IborIndex)
    (cur cur3 : Option YieldTermStructure) (u : Bool)
    (ts : YieldTermStructure) (fd : ℚ) (bdc : BusinessDayConvention) :
    (n ≤ 0 → construct1 vd md ty k n (some idx) cur u =
      Except.error (QLError.requireFailure "notionalAmount must be positive")) ∧
    (n ≤ 0 → construct3 vd md ty k n (some ts) fd bdc =
      Except.error (QLError.requireFailure "notionalAmount must be positive")) ∧
    (∀ fra, construct1 vd md ty k n ind cur u = Except.ok fra →
      0 < fra.notionalAmount) ∧
    (∀ fra, construct2 vd ty k n ind cur u = Except.ok fra →
      0 < fra.notionalAmount) ∧
    (∀ fra, construct3 vd md ty k n cur3 fd bdc = Except.ok fra →
      0 < fra.notionalAmount) := by
  have hc1 : ∀ (md2 : Date) (fra : ForwardRateAgreement),
      construct1 vd md2 ty k n ind cur u = Except.ok fra →
      0 < fra.notionalAmount := by
    intro md2 fra hok
    cases ind with
    | none => simp [construct1] at hok
    | some i =>
        by_cases hn : (0 : ℚ) < n
        · by_cases hv : vd < i.fixingCalendar.adjust md2 i.businessDayConvention
          · simp [construct1, hn, hv] at hok
            rw [← hok]
            exact hn
          · simp [construct1, hn, hv] at hok
        · simp [construct1, hn] at hok
  refine ⟨?_, ?_, hc1 md, ?_, ?_⟩
  · intro hn
    simp [construct1, not_lt.mpr hn]
  · intro hn
    simp [construct3, not_lt.mpr hn]
  · intro fra hok
    cases ind with
    | none => simp [construct2] at hok
    | some i =>
        simp [construct2] at hok
        exact hc1 (i.maturityDate vd) fra hok
  · intro fra hok
    cases cur3 with
    | none => simp [construct3] at hok
    | some c =>
        by_cases hn : (0 : ℚ) < n
        · by_cases hv : vd < c.calendar.adjust md bdc
          · simp [construct3, hn, hv] at hok
            rw [← hok]
            exact hn
          · simp [construct3, hn, hv] at hok
        · simp [construct3, hn] at hok

/-- Witness for claim C8: a zero notional is rejected by both constructors,
and the successfully constructed curve-driven fixture has positive
notional. -/
theorem claim_c8_notional_validation_witness :
    construct1 0 90 PositionType.Long (1 / 25) 0 (some sampleIdx) none true =
      Except.error (QLError.requireFailure "notionalAmount must be positive") ∧
    construct3 0 90 PositionType.Long (1 / 25) 0 (some tsFlat) 2
        BusinessDayConvention.Following =
      Except.error (QLError.requireFailure "notionalAmount must be positive") := by
  constructor
  · exact (claim_c8_notional_validation 0 90 PositionType.Long (1 / 25) 0
      sampleIdx none none none true tsFlat 2 BusinessDayConvention.Following).1
      le_rfl
  · exact (claim_c8_notional_validation 0 90 PositionType.Long (1 / 25) 0
      sampleIdx none none none true tsFlat 2 BusinessDayConvention.Following).2.1
      le_rfl

/-- Counterexample to claim C5 as stated: attempting the index-driven
constructor with a null index and an empty discountCurve (no discounting
source at all) does not fail with a descriptive validation error; it fails by
dereferencing the null index (undefined behaviour, a crash, in the C++
source), before any QL_REQUIRE can run. -/
theorem claim_c5_counterexample :
    construct1 0 30 PositionType.Long (1 / 20) 100 none none true =
      Except.error QLError.nullPointer ∧
    QLError.nullPointer.isValidationFailure = false :=
  ⟨rfl, rfl⟩

/-- Claim C5 as amended: construction never validates the discounting source
with an explicit check.  The curve-driven constructor dereferences the
discountCurve handle, so an empty handle fails immediately with the
empty-handle error; the index-driven constructors dereference the index, so a
null index is a null-pointer dereference (a crash, not a descriptive
validation error).  Every successfully constructed contract nevertheless has
a discounting source present: the index-driven constructors store the index
they dereferenced and the curve-driven constructor stores the non-empty
curve handle. -/
theorem claim_c5_amended (vd md : Date) (ty : PositionType) (k n : ℚ)
    (ind : Option IborIndex) (cur cur3 : Option YieldTermStructure)
    (u : Bool) (fd : ℚ) (bdc : BusinessDayConvention) :
    construct1 vd md ty k n none cur u = Except.error QLError.nullPointer ∧
    construct2 vd ty k n none cur u = Except.error QLError.nullPointer ∧
    construct3 vd md ty k n none fd bdc = Except.error QLError.emptyHandle ∧
    (∀ fra, construct1 vd md ty k n ind cur u = Except.ok fra →
      fra.index = ind ∧ ind.isSome) ∧
    (∀ fra, construct3 vd md ty k n cur3 fd bdc = Except.ok fra →
      fra.discountCurve = cur3 ∧ cur3.isSome) ∧
    (∀ fra, construct1 vd md ty k n ind cur u = Except.ok fra ∨
        construct2 vd ty k n ind cur u = Except.ok fra ∨
        construct3 vd md ty k n cur3 fd bdc = Except.ok fra →
      fra.index.isSome ∨ fra.discountCurve.isSome) := by
  have hc1 : ∀ (md2 : Date) (fra : ForwardRateAgreement),
      construct1 vd md2 ty k n ind cur u = Except.ok fra →
      fra.index = ind ∧ ind.isSome := by
    intro md2 fra hok
    cases ind with
    | none => simp [construct1] at hok
    | some i =>
        by_cases hn : (0 : ℚ) < n
        · by_cases hv : vd < i.fixingCalendar.adjust md2 i.businessDayConvention
          · simp [construct1, hn, hv] at hok
            rw [← hok]
            exact ⟨rfl, rfl⟩
          · simp [construct1, hn, hv] at hok
        · simp [construct1, hn] at hok
  have hc3 : ∀ fra, construct3 vd md ty k n cur3 fd bdc = Except.ok fra →
      fra.discountCurve = cur3 ∧ cur3.isSome := by
    intro fra hok
    cases cur3 with
    | none => simp [construct3] at hok
    | some c =>
        by_cases hn : (0 : ℚ) < n
        · by_cases hv : vd < c.calendar.adjust md bdc
          · simp [construct3, hn, hv] at hok
            rw [← hok]
            exact ⟨rfl, rfl⟩
          · simp [construct3, hn, hv] at hok
        · simp [construct3, hn] at hok
  refine ⟨rfl, rfl, rfl, hc1 md, hc3, ?_⟩
  intro fra hok
  rcases hok with h | h | h
  · obtain ⟨hi, hs⟩ := hc1 md fra h
    left
    rw [hi]
    exact hs
  · cases ind with
    | none => simp [construct2] at h
    | some i =>
        simp [construct2] at h
        obtain ⟨hi, hs⟩ := hc1 (i.maturityDate vd) fra h
        left
        rw [hi]
        exact hs
  · obtain ⟨hi, hs⟩ := hc3 fra h
    right
    rw [hi]
    exact hs

/-- Witness for claim C5 as amended: applied at concrete arguments; the
curve-driven fixture construction succeeds and stores the non-empty curve. -/
theorem claim_c5_amended_witness :
    construct3 0 90 PositionType.Long (1 / 20) 100 none (29 / 10)
        BusinessDayConvention.Following = Except.error QLError.emptyHandle ∧
    ∀ fra, construct3 0 90 PositionType.Long (1 / 20) 100 (some tsFlat)
        (29 / 10) BusinessDayConvention.Following = Except.ok fra →
      fra.discountCurve = some tsFlat ∧ (some tsFlat).isSome := by
  constructor
  · exact (claim_c5_amended 0 90 PositionType.Long (1 / 20) 100 none none
      none true (29 / 10) BusinessDayConvention.Following).2.2.1
  · exact (claim_c5_amended 0 90 PositionType.Long (1 / 20) 100 none none
      (some tsFlat) true (29 / 10) BusinessDayConvention.Following).2.2.2.2.1

/-- Claim C3: for a non-expired contract, NPV equals the settlement amount
multiplied by discount(valueDate), where the discounting curve is
discountCurve when non-empty and otherwise the index forwarding curve. -/
theorem claim_c3_npv_discounting (evalDate : Date)
    (fra : ForwardRateAgreement) (st : InstrumentResults)
    (fr : InterestRate) (amt : ℚ) (d : YieldTermStructure)
    (hexp : fra.isExpired evalDate = false) (hst : st.calculated = false)
    (hA : fra.calculateAmount = Except.ok (fr, amt))
    (hd : fra.discountHandle = Except.ok d) :
    (NPVQuery evalDate fra st).2 = Except.ok (amt * d.discount fra.valueDate) ∧
    (∀ c, fra.discountCurve = some c → d = c) ∧
    (fra.discountCurve = none → ∀ idx, fra.index = some idx →
      idx.forwardingTermStructure = some d) := by
  refine ⟨?_, ?_, ?_⟩
  · simp [NPVQuery, calculate, hst, hexp, performCalculationsState, hA, hd]
  · intro c hc
    unfold ForwardRateAgreement.discountHandle at hd
    rw [hc] at hd
    exact (Except.ok.inj hd).symm
  · intro hnone idx hidx
    unfold ForwardRateAgreement.discountHandle at hd
    cases hts : idx.forwardingTermStructure with
    | none => simp [hnone, hidx, hts] at hd
    | some ts =>
        simp [hnone, hidx, hts] at hd
        rw [hd]

/-- Witness for claim C3 at the indexed fixture: amount 20/81, discounting
through the index forwarding curve, NPV (20/81) * (99/100) = 11/45. -/
theorem claim_c3_npv_discounting_witness :
    (NPVQuery (-1) fraIdx stEmpty).2 = Except.ok (11 / 45) := by
  have h := claim_c3_npv_discounting (-1) fraIdx stEmpty frIdxVal (20 / 81)
    tsFlat rfl rfl
    (by
      simp [ForwardRateAgreement.calculateAmount,
        ForwardRateAgreement.calculateForwardRate, fraIdx, sampleIdx,
        ForwardRateAgreement.fixingDate, frIdxVal, strikeFix, dc360]
      norm_num)
    rfl
  rw [h.1]
  norm_num [fraIdx, tsFlat]

/-- Claim C4: when the contract is expired a query forces NPV and the error
estimate to zero regardless of curve values, while the forward rate is still
computed by the normal branch logic from current market data. -/
theorem claim_c4_expired_path (evalDate : Date)
    (fra : ForwardRateAgreement) (st : InstrumentResults) (fr : InterestRate)
    (hexp : fra.isExpired evalDate = true) (hst : st.calculated = false)
    (hfr : fra.calculateForwardRate = Except.ok fr) :
    (NPVQuery evalDate fra st).2 = Except.ok 0 ∧
    (calculate evalDate fra st).1.errorEstimate = some 0 ∧
    (forwardRateQuery evalDate fra st).2 = Except.ok (some fr) := by
  refine ⟨?_, ?_, ?_⟩
  all_goals
    simp [NPVQuery, forwardRateQuery, calculate, hexp, hst,
      setupExpiredState, hfr]

/-- Witness for claim C4: on evaluation day 5 the fixture contract with value
date 0 is expired; NPV is forced to zero although the curves discount to
nonzero values, and the forward-rate query still returns the branch-computed
rate 1/20. -/
theorem claim_c4_expired_path_witness :
    (NPVQuery 5 fraIdx stEmpty).2 = Except.ok 0 ∧
    (calculate 5 fraIdx stEmpty).1.errorEstimate = some 0 ∧
    (forwardRateQuery 5 fraIdx stEmpty).2 = Except.ok (some frIdxVal) :=
  claim_c4_expired_path 5 fraIdx stEmpty frIdxVal rfl rfl
    (by simp [ForwardRateAgreement.calculateForwardRate, fraIdx, sampleIdx,
      ForwardRateAgreement.fixingDate, frIdxVal])

/-- Counterexample to claim C6 as stated: on the fixture whose index carries
a realized fixing but no forwarding curve, the calculation fails (at the NPV
discounting step), yet the previously cached forward-rate and amount values
have already been overwritten, so a failing calculation does not fail before
any output is published. -/
theorem claim_c6_counterexample :
    (performCalculationsState fraIdxNoCurve stPrev).2 =
      some QLError.emptyHandle ∧
    (performCalculationsState fraIdxNoCurve stPrev).1.amount ≠ stPrev.amount ∧
    (performCalculationsState fraIdxNoCurve stPrev).1.forwardRate.map
        InterestRate.rate ≠ stPrev.forwardRate.map InterestRate.rate := by
  refine ⟨?_, ?_, ?_⟩
  all_goals
    simp [performCalculationsState, ForwardRateAgreement.calculateAmount,
      ForwardRateAgreement.calculateForwardRate,
      ForwardRateAgreement.discountHandle, fraIdxNoCurve, idxNoCurve,
      dc360, strikeFix, stPrev, ForwardRateAgreement.fixingDate]
  all_goals norm_num

/-- Claim C6 as amended: a failure inside the forward-rate step publishes
nothing; a successful calculation publishes all three outputs consistently;
but a failure at the NPV discounting step happens after forwardRate and
amount have already been overwritten, so only NPV keeps its previous cached
value; any failing calculation leaves the cache marked dirty so the next
query retries. -/
theorem claim_c6_amended (fra : ForwardRateAgreement)
    (st : InstrumentResults) :
    (∀ e, fra.calculateAmount = Except.error e →
      performCalculationsState fra st = (st, some e)) ∧
    (∀ e, fra.calculateForwardRate = Except.error e →
      fra.calculateAmount = Except.error e) ∧
    (∀ fr a d, fra.calculateAmount = Except.ok (fr, a) →
      fra.discountHandle = Except.ok d →
      performCalculationsState fra st =
        ({ st with
            forwardRate := some fr
            amount := some a
            NPV := some (a * d.discount fra.valueDate) }, none)) ∧
    (∀ fr a e, fra.calculateAmount = Except.ok (fr, a) →
      fra.discountHandle = Except.error e →
      performCalculationsState fra st =
        ({ st with forwardRate := some fr, amount := some a }, some e)) ∧
    (∀ evalDate st1 e, st.calculated = false →
      calculate evalDate fra st = (st1, some e) → st1.calculated = false) := by
  refine ⟨?_, ?_, ?_, ?_, ?_⟩
  · intro e hA
    simp [performCalculationsState, hA]
  · intro e hfr
    simp [ForwardRateAgreement.calculateAmount, hfr]
  · intro fr a d hA hd
    simp [performCalculationsState, hA, hd]
  · intro fr a e hA hd
    simp [performCalculationsState, hA, hd]
  · intro evalDate st1 e hst hcalc
    unfold calculate at hcalc
    simp only [hst, Bool.false_eq_true, if_false] at hcalc
    by_cases hexp : fra.isExpired evalDate
    · rw [if_pos hexp] at hcalc
      rcases hs : setupExpiredState fra st with ⟨sta, oe⟩
      rw [hs] at hcalc
      cases oe with
      | none => simp at hcalc
      | some e2 =>
          simp at hcalc
          rw [← hcalc.1]
    · rw [if_neg hexp] at hcalc
      rcases hs : performCalculationsState fra st with ⟨sta, oe⟩
      rw [hs] at hcalc
      cases oe with
      | none => simp at hcalc
      | some e2 =>
          simp at hcalc
          rw [← hcalc.1]

/-- Witness for claim C6 as amended, at the fixture whose NPV discounting
fails after the forward rate and amount were computed: the failing
calculation overwrites forwardRate and amount, reports the empty-handle
error, and the driver leaves the cache dirty. -/
theorem claim_c6_amended_witness :
    performCalculationsState fraIdxNoCurve stPrev =
      ({ stPrev with forwardRate := some frIdxVal, amount := some (20 / 81) },
        some QLError.emptyHandle) ∧
    (calculate (-1) fraIdxNoCurve stPrev).1.calculated = false := by
  have hA : fraIdxNoCurve.calculateAmount = Except.ok (frIdxVal, 20 / 81) := by
    simp [ForwardRateAgreement.calculateAmount,
      ForwardRateAgreement.calculateForwardRate, fraIdxNoCurve, idxNoCurve,
      ForwardRateAgreement.fixingDate, frIdxVal, strikeFix, dc360]
    norm_num
  have h := (claim_c6_amended fraIdxNoCurve stPrev).2.2.2.1 frIdxVal (20 / 81)
    QLError.emptyHandle hA rfl
  have hcalcEq : calculate (-1) fraIdxNoCurve stPrev =
      ({ stPrev with forwardRate := some frIdxVal, amount := some (20 / 81) },
        some QLError.emptyHandle) := by
    unfold calculate
    rw [if_neg (by decide), if_neg (by decide), h]
    simp [stPrev]
  constructor
  · exact h
  · exact (claim_c6_amended fraIdxNoCurve stPrev).2.2.2.2 (-1)
      { stPrev with forwardRate := some frIdxVal, amount := some (20 / 81) }
      QLError.emptyHandle rfl hcalcEq

end QLFra
